import Mathlib

/-!
Verification of the washer-monitorring worker (Cloudflare Worker polling a
SwitchBot Plug Mini and notifying a Discord webhook on washer state changes).

The embedding follows the most recent revision of the worker
(`src/unnamed/part_001`), which the specification adopts: the scheduled
handler fetches the plug status, computes the wattage, reads the persisted
state token from the KV store under the key "status", compares the wattage
against a configurable threshold, and on a state transition concurrently
dispatches a notification and persists the new token.

Numbers that are JavaScript floats in the source (voltage, current, watt)
are modelled as rationals; the values involved (household electrical
readings and small integer thresholds) are far from any float-rounding
boundary, and every claim is about control flow through exact comparisons.
-/

namespace WasherMonitorring

/-- Body of the SwitchBot Plug Mini status response
(`PlugMiniStatusResponse.body`, `src/unnamed/part_001` lines 18-27). -/
structure PlugMiniBody where
  deviceId : String
  deviceType : String
  hubDeviceId : String
  voltage : ℚ
  version : String
  weight : ℚ
  electricityOfDay : ℚ
  electricCurrent : ℚ
deriving DecidableEq, Repr

/-- SwitchBot Plug Mini status response (`src/unnamed/part_001` lines 16-29). -/
structure PlugMiniStatusResponse where
  statusCode : Int
  body : PlugMiniBody
  message : String
deriving DecidableEq, Repr

/-- The zeroed body used in the failure sentinel
(`src/unnamed/part_001` lines 87-96). -/
def emptyBody : PlugMiniBody :=
  { deviceId := "", deviceType := "", hubDeviceId := "", voltage := 0
    version := "", weight := 0, electricityOfDay := 0, electricCurrent := 0 }

/-- The sentinel value returned by `fetchPlugMiniStatus` on any failure
(`src/unnamed/part_001` lines 85-98): `statusCode` is `-1` and the body is
zeroed. -/
def failureSentinel (msg : String) : PlugMiniStatusResponse :=
  { statusCode := -1, body := emptyBody, message := msg }

/-- Outcome of the single HTTP exchange performed by `fetchPlugMiniStatus`:
either the transport threw, or a response arrived with an `ok` flag and a
body that either parses as JSON into a `PlugMiniStatusResponse` (`some`) or
is malformed (`none`). -/
inductive SwitchBotHttp where
  | exn (msg : String)
  | resp (ok : Bool) (json : Option PlugMiniStatusResponse) (statusText : String)
deriving DecidableEq, Repr

/-- `fetchPlugMiniStatus` (`src/unnamed/part_001` lines 59-100), as a function
of the HTTP outcome.  The source wraps the whole exchange in try/catch: a
non-ok response raises (line 80), a JSON parse failure raises (line 82), and
every raised error is caught and collapsed into the sentinel (lines 83-99).
The Lean function is total, modelling that the component never throws. -/
def fetchPlugMiniStatus : SwitchBotHttp → PlugMiniStatusResponse
  | .exn msg => failureSentinel msg
  | .resp false _ statusText =>
      failureSentinel ("SwitchBot API request failed: " ++ statusText)
  | .resp true none _ => failureSentinel "JSON parse error"
  | .resp true (some r) _ => r

/-- Whether the HTTP outcome is the one success shape (ok response whose body
parses): exactly the case where `fetchPlugMiniStatus` returns the parsed
body instead of the sentinel. -/
def isSuccessfulFetch : SwitchBotHttp → Prop
  | .resp true (some _) _ => True
  | _ => False

instance : DecidablePred isSuccessfulFetch := by
  intro o
  cases o with
  | exn m => exact isFalse (fun h => h)
  | resp ok json st =>
      cases ok with
      | false => exact isFalse (fun h => h)
      | true =>
          cases json with
          | none => exact isFalse (fun h => h)
          | some r => exact isTrue trivial

/-- Numeric value of a decimal digit character. -/
def digitVal (c : Char) : Nat := c.toNat - '0'.toNat

/-- Value of a list of decimal digit characters, most significant first. -/
def natOfDigits (ds : List Char) : Nat :=
  ds.foldl (fun acc c => acc * 10 + digitVal c) 0

/-- JavaScript `parseInt(s, 10)`: skip leading whitespace, read an optional
sign, then the longest run of decimal digits; `none` models `NaN` (no digits
found).  Trailing garbage after the digits is ignored, as in JS. -/
def parseIntBase10 (s : String) : Option Int :=
  let cs := s.data.dropWhile (fun c => c.isWhitespace)
  let signAndRest : Int × List Char :=
    match cs with
    | '-' :: r => (-1, r)
    | '+' :: r => (1, r)
    | r => (1, r)
  let ds := signAndRest.2.takeWhile (fun c => c.isDigit)
  if ds.isEmpty then none
  else some (signAndRest.1 * (natOfDigits ds : Int))

/-- The effective wattage threshold (`src/unnamed/part_001` lines 176-179):
`parseInt(env.WASHER_START_THRESHOLD ?? "5", 10)`, falling back to `5` when
the result is `NaN`. -/
def effectiveThreshold (cfg : Option String) : Int :=
  match parseIntBase10 (cfg.getD "5") with
  | none => 5
  | some v => v

/-- The persisted washer state of the spec's data model: `Idle` is stored as
token "0", `Running` as token "1". -/
inductive WasherState where
  | Idle
  | Running
deriving DecidableEq, Repr

/-- The string token under which a `WasherState` is persisted in the KV
store. -/
def stateToken : WasherState → String
  | .Idle => "0"
  | .Running => "1"

/-- The decision of the power-state evaluator. -/
inductive Decision where
  | NoChange
  | TransitionToRunning
  | TransitionToIdle
deriving DecidableEq, Repr

/-- The transition decision taken by the scheduled handler
(`src/unnamed/part_001` lines 200-204), on the raw status token:
`currentStatus === "0" && watt >= WASHER_START_THRESHOLD` starts,
`currentStatus === "1" && watt < WASHER_START_THRESHOLD` stops, anything
else does nothing. -/
def evaluateTok (currentStatus : String) (watt threshold : ℚ) : Decision :=
  if currentStatus = "0" ∧ watt ≥ threshold then .TransitionToRunning
  else if currentStatus = "1" ∧ watt < threshold then .TransitionToIdle
  else .NoChange

/-- The evaluator of the spec's §4.3, obtained from the handler's decision
logic by reading the previous state through its stored token. -/
def evaluate (previousState : WasherState) (watt threshold : ℚ) : Decision :=
  evaluateTok (stateToken previousState) watt threshold

/-- Watt computation of `src/unnamed/part_001` line 172:
`voltage * (electricCurrent / 1000)`. -/
def computeWatt (body : PlugMiniBody) : ℚ :=
  body.voltage * (body.electricCurrent / 1000)

/-- An observable side effect attempted by the scheduled handler. -/
inductive Action where
  | notify (message : String)
  | kvPut (key value : String)
deriving DecidableEq, Repr

/-- Notification text for the Idle-to-Running edge
(`src/unnamed/part_001` line 201). -/
def startMessage : String := "ゴシゴシはじめますわ〜！"

/-- Notification text for the Running-to-Idle edge
(`src/unnamed/part_001` line 203). -/
def finishMessage : String := "早く干してくださいませ〜！"

/-- The pair of side effects issued by `handleStatusChange`
(`src/unnamed/part_001` lines 182-198): the notification dispatch and the KV
write of the next status token under the key "status".  Both promises are
created before either settles. -/
def handleStatusChange (nextStatus message : String) : List Action :=
  [Action.notify message, Action.kvPut "status" nextStatus]

/-- The settlement result of one promise: fulfilled with a value, or rejected
with a reason. -/
inductive PromiseResult (α : Type) where
  | fulfilled (value : α)
  | rejected (reason : String)
deriving DecidableEq, Repr

/-- `Promise.allSettled` over a list of actions given each action's outcome:
every action in the list is attempted and paired with its own settlement;
no outcome short-circuits, cancels, or drops another action. -/
def allSettled {α : Type} (outcome : Action → PromiseResult α)
    (acts : List Action) : List (Action × PromiseResult α) :=
  acts.map (fun a => (a, outcome a))

/-- The scheduled handler (`src/unnamed/part_001` lines 168-205) from the
fetch result onward, returning the list of side effects it attempts.  The KV
store is a map from keys to optional string values; the handler reads only
the key "status" with default "0" (line 173), computes the watt (line 172)
and the effective threshold (lines 176-179), and fires at most one of the
two transition branches (lines 200-204). -/
def scheduledTick (res : PlugMiniStatusResponse) (kv : String → Option String)
    (thresholdCfg : Option String) : List Action :=
  if res.statusCode = 100 then
    let watt := computeWatt res.body
    let currentStatus := (kv "status").getD "0"
    let threshold : ℚ := (effectiveThreshold thresholdCfg : ℚ)
    if currentStatus = "0" ∧ watt ≥ threshold then
      handleStatusChange "1" startMessage
    else if currentStatus = "1" ∧ watt < threshold then
      handleStatusChange "0" finishMessage
    else []
  else []

/-- One HTTP response observed by `sendDiscordNotification`: the status code
and the optional Retry-After header (`none` when the header is absent). -/
structure NotifyResponse where
  status : Nat
  retryAfter : Option String
deriving DecidableEq, Repr

/-- The `response.ok` flag: status in the 2xx range. -/
def respOk (r : NotifyResponse) : Bool :=
  decide (200 ≤ r.status ∧ r.status ≤ 299)

/-- The string returned by one invocation of `sendDiscordNotification`
(`src/unnamed/part_001` lines 103-141) for a given response: "Rate limited"
on 429 (line 127), an error string on any other non-ok status (line 133),
"OK" otherwise (line 136). -/
def notifyResult (r : NotifyResponse) : String :=
  if r.status = 429 then "Rate limited"
  else if respOk r = false then "Error: " ++ toString r.status
  else "OK"

/-- The `setTimeout` delay computed on a 429
(`src/unnamed/part_001` line 123): `retryAfter ? parseInt(retryAfter, 10) *
1000 : 1000`.  An absent header (and the falsy empty string) yields 1000 ms;
a present but unparseable header yields `NaN`, modelled as `none`. -/
def retryWaitMs (retryAfter : Option String) : Option Int :=
  match retryAfter with
  | none => some 1000
  | some s =>
      if s = "" then some 1000
      else (parseIntBase10 s).map (fun v => v * 1000)

/-- The total number of invocations of `sendDiscordNotification` given the
stream of responses returned by successive fetches.  Each invocation consumes
one response; on a 429 it schedules exactly one recursive invocation via
`setTimeout` (`src/unnamed/part_001` lines 124-126), which consumes the next
response; on any other response no further invocation is scheduled.  The
chain therefore runs one invocation per leading 429 plus one. -/
def notifyInvocationCount : List NotifyResponse → Nat
  | [] => 0
  | r :: rest =>
      if r.status = 429 then 1 + notifyInvocationCount rest else 1

/-! Helper lemmas shared by the claim theorems. -/

/-- The scheduled handler's branch structure re-expressed through the
evaluator: the tick fires the branch selected by `evaluateTok` on the
effective status token, watt, and effective threshold. -/
theorem scheduledTick_eval (res : PlugMiniStatusResponse) (kv : String → Option String)
    (cfg : Option String) :
    scheduledTick res kv cfg =
      if res.statusCode = 100 then
        match evaluateTok ((kv "status").getD "0") (computeWatt res.body)
            (effectiveThreshold cfg : ℚ) with
        | .TransitionToRunning => handleStatusChange "1" startMessage
        | .TransitionToIdle => handleStatusChange "0" finishMessage
        | .NoChange => []
      else [] := by
  simp only [scheduledTick, evaluateTok]
  split_ifs <;> rfl

/-- The evaluator answers `TransitionToRunning` exactly on token "0" with
watt at or above the threshold. -/
theorem evaluateTok_running_iff (c : String) (w t : ℚ) :
    evaluateTok c w t = .TransitionToRunning ↔ c = "0" ∧ w ≥ t := by
  unfold evaluateTok
  split_ifs with h1 h2 <;> simp_all

/-- The evaluator answers `TransitionToIdle` exactly on token "1" with watt
below the threshold. -/
theorem evaluateTok_idle_iff (c : String) (w t : ℚ) :
    evaluateTok c w t = .TransitionToIdle ↔ c = "1" ∧ w < t := by
  unfold evaluateTok
  split_ifs with h1 h2 <;> simp_all

/-- On a token that is neither "0" nor "1" the evaluator never fires. -/
theorem evaluateTok_foreign (s : String) (w t : ℚ) (h0 : s ≠ "0") (h1 : s ≠ "1") :
    evaluateTok s w t = .NoChange := by
  simp [evaluateTok, h0, h1]

/-- A tick whose evaluator decision is `NoChange` attempts no side effect. -/
theorem tick_nochange (res : PlugMiniStatusResponse) (kv : String → Option String)
    (cfg : Option String)
    (h : evaluateTok ((kv "status").getD "0") (computeWatt res.body)
        (effectiveThreshold cfg : ℚ) = .NoChange) :
    scheduledTick res kv cfg = [] := by
  rw [scheduledTick_eval, h]
  split_ifs <;> rfl

/-- Every non-success fetch outcome yields the failure sentinel. -/
theorem fetch_fail_sentinel (o : SwitchBotHttp) (h : ¬ isSuccessfulFetch o) :
    ∃ m, fetchPlugMiniStatus o = failureSentinel m := by
  cases o with
  | exn m => exact ⟨m, rfl⟩
  | resp ok json st =>
      cases ok with
      | false => exact ⟨_, rfl⟩
      | true =>
          cases json with
          | none => exact ⟨_, rfl⟩
          | some r => exact absurd trivial h

/-! Concrete fixtures used by witnesses. -/

/-- A body reading 100 V and 80 mA, hence 8 W. -/
def sampleRunningBody : PlugMiniBody :=
  { emptyBody with voltage := 100, electricCurrent := 80 }

/-- A successful vendor response (status code 100) with the 8 W body. -/
def sampleOkResponse : PlugMiniStatusResponse :=
  { statusCode := 100, body := sampleRunningBody, message := "success" }

/-- The 8 W sample body computes to exactly 8 W. -/
theorem sampleRunningBody_watt : computeWatt sampleRunningBody = 8 := by
  norm_num [computeWatt, sampleRunningBody, emptyBody]

/-- The default effective threshold is 5. -/
theorem effectiveThreshold_none : effectiveThreshold none = 5 := by decide

/-- An outcome assignment under which the notification promise rejects while
the KV write fulfills. -/
def rejectNotification : Action → PromiseResult Unit
  | .notify _ => .rejected "Discord down"
  | .kvPut _ _ => .fulfilled ()

/-! Claim theorems. -/

/-- Claim C1: for all (previousState, watt, threshold), `evaluate` returns
`TransitionToRunning` iff `previousState = Idle` and `watt ≥ threshold`,
`TransitionToIdle` iff `previousState = Running` and `watt < threshold`, and
`NoChange` otherwise; at the boundary `watt = threshold` the start edge
fires (inclusive comparison) and the stop edge does not. -/
theorem C1_evaluate_characterization (previousState : WasherState) (watt threshold : ℚ) :
    ((evaluate previousState watt threshold = .TransitionToRunning ↔
        previousState = .Idle ∧ watt ≥ threshold) ∧
      (evaluate previousState watt threshold = .TransitionToIdle ↔
        previousState = .Running ∧ watt < threshold) ∧
      (evaluate previousState watt threshold = .NoChange ↔
        ¬(previousState = .Idle ∧ watt ≥ threshold) ∧
          ¬(previousState = .Running ∧ watt < threshold))) ∧
    evaluate .Idle threshold threshold = .TransitionToRunning ∧
    evaluate .Running threshold threshold = .NoChange := by
  refine ⟨⟨?_, ?_, ?_⟩, ?_, ?_⟩
  · cases previousState <;>
      simp [evaluate, stateToken, evaluateTok_running_iff]
  · cases previousState <;>
      simp [evaluate, stateToken, evaluateTok_idle_iff]
  · cases previousState <;>
      · by_cases h : threshold ≤ watt <;>
          simp [evaluate, stateToken, evaluateTok, h, not_le]
  · simp [evaluate, stateToken, evaluateTok, le_refl]
  · simp [evaluate, stateToken, evaluateTok, lt_irrefl]

/-- Claim C1 instantiated at the threshold boundary 5 = 5: the start edge
fires and the stop edge does not. -/
theorem C1_evaluate_characterization_boundary :
    evaluate .Idle 5 5 = .TransitionToRunning ∧
    evaluate .Running 5 5 = .NoChange :=
  ⟨(C1_evaluate_characterization .Idle 5 5).2.1,
   (C1_evaluate_characterization .Running 5 5).2.2⟩

/-- Claim C2 is violated by the code: on a stream of three consecutive 429
responses, `sendDiscordNotification` runs three invocations (the original
plus two follow-up retries, one scheduled per 429, with no bound), each
invocation surfaces "Rate limited" rather than anything like "Failed", and a
present but unparseable Retry-After header produces a `NaN` delay (modelled
`none`) rather than the claimed 1-second default. -/
theorem C2_unbounded_retry_on_429 :
    notifyInvocationCount
        [⟨429, some "2"⟩, ⟨429, some "2"⟩, ⟨429, some "2"⟩] = 3 ∧
    notifyResult ⟨429, some "2"⟩ = "Rate limited" ∧
    notifyResult ⟨429, some "2"⟩ ≠ "Failed" ∧
    retryWaitMs (some "soon") = none ∧
    retryWaitMs none = some 1000 := by
  refine ⟨by decide, by decide, by decide, by decide, by decide⟩

/-- Claim C5: a vendor response with status code other than 100, even with a
well-formed body, ends the tick with zero notifications and zero store
writes. -/
theorem C5_non100_no_effects (res : PlugMiniStatusResponse)
    (kv : String → Option String) (cfg : Option String)
    (h : res.statusCode ≠ 100) :
    scheduledTick res kv cfg = [] := by
  simp [scheduledTick, h]

/-- Claim C5 witness: vendor status code 190 with the well-formed 8 W body
produces no side effects. -/
theorem C5_non100_no_effects_witness :
    scheduledTick { statusCode := 190, body := sampleRunningBody, message := "err" }
      (fun _ => some "0") none = [] :=
  C5_non100_no_effects _ _ _ (by decide)

/-- Claim C6: `fetchPlugMiniStatus` is a total function into
`PlugMiniStatusResponse` (modelling that it never throws), and every
transport exception, every non-success HTTP status, and every malformed body
collapses into the failure sentinel with statusCode -1 and zeroed body. -/
theorem C6_fetch_collapses_failures (o : SwitchBotHttp)
    (h : ¬ isSuccessfulFetch o) :
    (fetchPlugMiniStatus o).statusCode = -1 ∧
    (fetchPlugMiniStatus o).body = emptyBody := by
  obtain ⟨m, hm⟩ := fetch_fail_sentinel o h
  rw [hm]
  exact ⟨rfl, rfl⟩

/-- Claim C6 witness: a transport exception yields the sentinel. -/
theorem C6_fetch_collapses_failures_witness :
    (fetchPlugMiniStatus (.exn "network down")).statusCode = -1 ∧
    (fetchPlugMiniStatus (.exn "network down")).body = emptyBody :=
  C6_fetch_collapses_failures (.exn "network down") (fun h => h)

/-- Claim C3: on every tick that detected a state transition, the attempted
side effects are exactly the notification and the store write of the new
token, and under `Promise.allSettled` both are attempted whatever either
outcome is — a failed, thrown, or rate-limited notification never blocks,
skips, or rolls back the store write, and a failed store write never
suppresses the notification attempt. -/
theorem C3_transition_attempts_both_effects (outcome : Action → PromiseResult Unit)
    (res : PlugMiniStatusResponse) (kv : String → Option String)
    (cfg : Option String) (h : scheduledTick res kv cfg ≠ []) :
    ∃ message nextStatus,
      scheduledTick res kv cfg = handleStatusChange nextStatus message ∧
      (allSettled outcome (scheduledTick res kv cfg)).map Prod.fst =
        [Action.notify message, Action.kvPut "status" nextStatus] := by
  rw [scheduledTick_eval] at h ⊢
  by_cases h100 : res.statusCode = 100
  · rw [if_pos h100] at h ⊢
    rcases hE : evaluateTok ((kv "status").getD "0") (computeWatt res.body)
        (effectiveThreshold cfg : ℚ) with _ | _ | _
    · rw [hE] at h
      exact absurd rfl h
    · exact ⟨startMessage, "1", rfl, by simp [allSettled, handleStatusChange]⟩
    · exact ⟨finishMessage, "0", rfl, by simp [allSettled, handleStatusChange]⟩
  · rw [if_neg h100] at h
    exact absurd rfl h

/-- Claim C3 witness: on the start transition with the notification promise
rejected and the KV write fulfilled, both effects are still attempted. -/
theorem C3_transition_attempts_both_effects_witness :
    ∃ message nextStatus,
      scheduledTick sampleOkResponse (fun _ => some "0") none =
        handleStatusChange nextStatus message ∧
      (allSettled rejectNotification
          (scheduledTick sampleOkResponse (fun _ => some "0") none)).map Prod.fst =
        [Action.notify message, Action.kvPut "status" nextStatus] := by
  apply C3_transition_attempts_both_effects rejectNotification sampleOkResponse
    (fun _ => some "0") none
  rw [scheduledTick_eval]
  have hE : evaluateTok "0" (computeWatt sampleRunningBody)
      (effectiveThreshold none : ℚ) = .TransitionToRunning := by
    rw [evaluateTok_running_iff, effectiveThreshold_none, sampleRunningBody_watt]
    norm_num
  simp only [sampleOkResponse, Option.getD_some, hE]
  simp [handleStatusChange]

/-- Claim C4: on every tick, a notification is attempted iff the store write
is attempted, any written token differs from the effective current token (the
persisted state is about to change), a `NoChange` decision yields zero
notifications and zero store writes, and two consecutive `NoChange` ticks
yield zero side effects in total. -/
theorem C4_effects_iff_state_change (res : PlugMiniStatusResponse)
    (kv : String → Option String) (cfg : Option String) :
    ((∃ m, Action.notify m ∈ scheduledTick res kv cfg) ↔
      (∃ v, Action.kvPut "status" v ∈ scheduledTick res kv cfg)) ∧
    (∀ v, Action.kvPut "status" v ∈ scheduledTick res kv cfg →
      v ≠ (kv "status").getD "0") ∧
    (evaluateTok ((kv "status").getD "0") (computeWatt res.body)
        (effectiveThreshold cfg : ℚ) = .NoChange →
      scheduledTick res kv cfg = []) ∧
    (∀ (res2 : PlugMiniStatusResponse) (kv2 : String → Option String)
        (cfg2 : Option String),
      evaluateTok ((kv "status").getD "0") (computeWatt res.body)
          (effectiveThreshold cfg : ℚ) = .NoChange →
      evaluateTok ((kv2 "status").getD "0") (computeWatt res2.body)
          (effectiveThreshold cfg2 : ℚ) = .NoChange →
      scheduledTick res kv cfg ++ scheduledTick res2 kv2 cfg2 = []) := by
  refine ⟨?_, ?_, tick_nochange res kv cfg, ?_⟩
  · rw [scheduledTick_eval]
    by_cases h100 : res.statusCode = 100
    · rw [if_pos h100]
      rcases hE : evaluateTok ((kv "status").getD "0") (computeWatt res.body)
          (effectiveThreshold cfg : ℚ) with _ | _ | _ <;>
        simp [handleStatusChange]
    · rw [if_neg h100]
      simp
  · intro v hv
    rw [scheduledTick_eval] at hv
    by_cases h100 : res.statusCode = 100
    · rw [if_pos h100] at hv
      rcases hE : evaluateTok ((kv "status").getD "0") (computeWatt res.body)
          (effectiveThreshold cfg : ℚ) with _ | _ | _ <;> rw [hE] at hv
      · simp at hv
      · have hc := (evaluateTok_running_iff _ _ _).mp hE
        simp only [handleStatusChange, List.mem_cons, List.mem_singleton] at hv
        rcases hv with hv | hv | hv
        · exact absurd hv (by simp)
        · rw [hc.1]
          injection hv with _ hv2
          rw [hv2]
          decide
        · exact absurd hv (by simp)
      · have hc := (evaluateTok_idle_iff _ _ _).mp hE
        simp only [handleStatusChange, List.mem_cons, List.mem_singleton] at hv
        rcases hv with hv | hv | hv
        · exact absurd hv (by simp)
        · rw [hc.1]
          injection hv with _ hv2
          rw [hv2]
          decide
        · exact absurd hv (by simp)
    · rw [if_neg h100] at hv
      simp at hv
  · intro res2 kv2 cfg2 hA hB
    rw [tick_nochange res kv cfg hA, tick_nochange res2 kv2 cfg2 hB]
    rfl

/-- Claim C4 witness: a concrete `NoChange` tick (status "0" stored, 0 W
reading) followed by another `NoChange` tick produces zero side effects. -/
theorem C4_effects_iff_state_change_witness :
    scheduledTick { statusCode := 100, body := emptyBody, message := "ok" }
        (fun _ => some "0") none ++
      scheduledTick { statusCode := 100, body := emptyBody, message := "ok" }
        (fun _ => some "0") none = [] := by
  have hE : evaluateTok "0" (computeWatt emptyBody) (effectiveThreshold none : ℚ) =
      .NoChange := by
    rw [effectiveThreshold_none]
    have hw : computeWatt emptyBody = 0 := by norm_num [computeWatt, emptyBody]
    have hlt : ¬((0 : ℚ) ≥ ((5 : Int) : ℚ)) := by norm_num
    simp [evaluateTok, hw, hlt]
  exact (C4_effects_iff_state_change
      { statusCode := 100, body := emptyBody, message := "ok" }
      (fun _ => some "0") none).2.2.2
      { statusCode := 100, body := emptyBody, message := "ok" }
      (fun _ => some "0") none hE hE

/-- Claim C7: the previous state is read from the single store key "status"
(the tick depends on the store only through that key), and an absent value is
taken as Idle (token "0"), so a first-ever run whose wattage reaches the
threshold produces the start transition. -/
theorem C7_absent_status_defaults_idle (res : PlugMiniStatusResponse)
    (kv : String → Option String) (cfg : Option String)
    (habsent : kv "status" = none) :
    (∀ kv2 : String → Option String, kv2 "status" = kv "status" →
      scheduledTick res kv2 cfg = scheduledTick res kv cfg) ∧
    (res.statusCode = 100 →
      computeWatt res.body ≥ (effectiveThreshold cfg : ℚ) →
      scheduledTick res kv cfg = [Action.notify startMessage, Action.kvPut "status" "1"]) := by
  constructor
  · intro kv2 hkv2
    rw [scheduledTick_eval, scheduledTick_eval, hkv2]
  · intro h100 hwatt
    rw [scheduledTick_eval, if_pos h100, habsent]
    have hE : evaluateTok ((none : Option String).getD "0") (computeWatt res.body)
        (effectiveThreshold cfg : ℚ) = .TransitionToRunning := by
      rw [evaluateTok_running_iff]
      exact ⟨rfl, hwatt⟩
    rw [hE]
    rfl

/-- Claim C7 witness: with nothing stored under "status", a 100-status
response at 8 W with the default threshold 5 fires the start transition. -/
theorem C7_absent_status_defaults_idle_witness :
    scheduledTick sampleOkResponse (fun _ => none) none =
      [Action.notify startMessage, Action.kvPut "status" "1"] := by
  refine (C7_absent_status_defaults_idle sampleOkResponse (fun _ => none) none rfl).2
    rfl ?_
  show computeWatt sampleRunningBody ≥ (effectiveThreshold none : ℚ)
  rw [sampleRunningBody_watt, effectiveThreshold_none]
  norm_num

/-- Claim C8: the effective threshold equals the base-10 integer parse
(JavaScript `parseInt` semantics) of the configured string, and falls back to
exactly 5 when the configuration is absent or does not parse to a number;
`effectiveThreshold` is a total function, so an unparseable threshold never
aborts the tick. -/
theorem C8_threshold_parse_default (cfg : Option String) :
    (∀ s n, cfg = some s → parseIntBase10 s = some n → effectiveThreshold cfg = n) ∧
    (cfg = none → effectiveThreshold cfg = 5) ∧
    (∀ s, cfg = some s → parseIntBase10 s = none → effectiveThreshold cfg = 5) := by
  refine ⟨?_, ?_, ?_⟩
  · intro s n hcfg hp
    rw [hcfg]
    simp [effectiveThreshold, hp]
  · intro hcfg
    rw [hcfg]
    decide
  · intro s hcfg hp
    rw [hcfg]
    simp [effectiveThreshold, hp]

/-- Claim C8 witness: the non-numeric string "MAX" falls back to 5 and the
numeric string "7" parses to 7. -/
theorem C8_threshold_parse_default_witness :
    effectiveThreshold (some "MAX") = 5 ∧ effectiveThreshold (some "7") = 7 :=
  ⟨(C8_threshold_parse_default (some "MAX")).2.2 "MAX" rfl (by decide),
   (C8_threshold_parse_default (some "7")).1 "7" 7 rfl (by decide)⟩

/-- Claim C9: when the fetch succeeds with vendor status code 100 but the
stored token under "status" is neither "0" nor "1", neither transition branch
fires for any wattage: no notification and no store write occur. -/
theorem C9_foreign_token_silent (res : PlugMiniStatusResponse)
    (kv : String → Option String) (cfg : Option String) (s : String)
    (_h100 : res.statusCode = 100) (hs : kv "status" = some s)
    (h0 : s ≠ "0") (h1 : s ≠ "1") :
    scheduledTick res kv cfg = [] := by
  apply tick_nochange
  rw [hs]
  exact evaluateTok_foreign s _ _ h0 h1

/-- Claim C9 witness: stored token "2" with a valid 8 W reading produces no
side effects. -/
theorem C9_foreign_token_silent_witness :
    scheduledTick sampleOkResponse (fun _ => some "2") none = [] :=
  C9_foreign_token_silent sampleOkResponse (fun _ => some "2") none "2"
    rfl rfl (by decide) (by decide)

/-- Claim C10: every failing fetch yields the sentinel whose statusCode is
-1, which is never 100, so the zeroed voltage and current in the sentinel
body never reach the wattage computation: a transport failure can never be
mistaken for a genuine 0 W reading, and the tick on a failed fetch attempts
no notification and no store write. -/
theorem C10_fetch_failure_is_inert (o : SwitchBotHttp)
    (kv : String → Option String) (cfg : Option String)
    (h : ¬ isSuccessfulFetch o) :
    (fetchPlugMiniStatus o).statusCode = -1 ∧
    (fetchPlugMiniStatus o).statusCode ≠ 100 ∧
    scheduledTick (fetchPlugMiniStatus o) kv cfg = [] := by
  obtain ⟨m, hm⟩ := fetch_fail_sentinel o h
  rw [hm]
  refine ⟨rfl, ?_, ?_⟩
  · show (-1 : Int) ≠ 100
    decide
  · rw [scheduledTick_eval]
    refine if_neg ?_
    show ¬(-1 : Int) = 100
    decide

/-- Claim C10 witness: a transport timeout while the store holds "1" yields
the sentinel and an effect-free tick, so no spurious stop notification. -/
theorem C10_fetch_failure_is_inert_witness :
    (fetchPlugMiniStatus (.exn "timeout")).statusCode = -1 ∧
    (fetchPlugMiniStatus (.exn "timeout")).statusCode ≠ 100 ∧
    scheduledTick (fetchPlugMiniStatus (.exn "timeout")) (fun _ => some "1") none = [] :=
  C10_fetch_failure_is_inert (.exn "timeout") (fun _ => some "1") none (fun h => h)

end WasherMonitorring
